import Mathlib

/-!
Shallow embedding of the ruby-ai-chatbot server routes, and theorems checking
the natural-language specification against them.

Source files embedded here:
* src/app/api/chat/route.ts   (chat relay: message formatting, provider
  dispatch, persona prepending, groq stream normalization, qwen passthrough)
* src/app/api/upload/route.ts (first variant, the authoritative one: suffix
  dispatch, whitespace cleanup, truncation, response body)
* src/unnamed/part_002        (generate route: GET status polling and its
  normalized response shape)

Strings are modelled as Lean String values (sequences of characters); the
UTF-8 decoding step buffer.toString is modelled as the identity on the decoded
text, and the JavaScript regular-expression class backslash-s is modelled by
its ASCII members (space, tab, newline, carriage return, vertical tab, form
feed), which covers every input the claims mention. External libraries
(the groq SDK transport, mammoth, fetch) are modelled as parameters: the
vendor response data a route consumes is passed to the embedded route
function as an explicit argument.
-/

/-! ## Chat relay route (src/app/api/chat/route.ts) -/

/-- One typed part of a formatted message content list (interface
MessageContent in route.ts): a text part or an image-reference part. -/
inductive ContentPart where
  | text (s : String)
  | image_url (url : String)
deriving DecidableEq, Repr

/-- Content of an outgoing vendor message: either a plain string or a list of
typed parts (route.ts ChatMessage.content is string or MessageContent[]). -/
inductive MsgContent where
  | str (s : String)
  | parts (l : List ContentPart)
deriving DecidableEq, Repr

/-- An incoming caller message (interface ChatMessage in route.ts): a role, a
content string, and an optional inline image data URL. -/
structure ChatMessage where
  role : String
  content : String
  image : Option String := none
deriving DecidableEq, Repr

/-- A message as sent to a vendor: role plus formatted content. -/
structure OutMessage where
  role : String
  content : MsgContent
deriving DecidableEq, Repr

/-- JavaScript truthiness of an optional string: absent, null and the empty
string are falsy (the test if msg.image in route.ts line 43). -/
def strTruthy : Option String → Bool
  | none => false
  | some s => s != ""

/-- Per-message formatting (route.ts lines 42 to 53): a message with a truthy
image field is expanded into a two-part content list, text part first, then
the image-reference part; any other message keeps its content unchanged. -/
def formatMessage (msg : ChatMessage) : OutMessage :=
  if strTruthy msg.image then
    { role := msg.role
      content := .parts [.text msg.content, .image_url (msg.image.getD "")] }
  else
    { role := msg.role, content := .str msg.content }

/-- The fixed Ruby persona instruction text (route.ts lines 59 to 63). -/
def systemPrompt : String :=
  "You are Ruby, a helpful AI assistant. Guidelines:\n- Be concise and direct\n- For coding questions: provide code solution first, then brief explanations\n- Use markdown with proper code blocks (\x60\x60\x60language)\n- Be friendly but efficient"

/-- The systemMessage object built in route.ts lines 57 to 64. -/
def systemMessage : OutMessage :=
  { role := "system", content := .str systemPrompt }

/-- The two chat backends the route can dispatch to. -/
inductive Backend where
  | groq
  | qwen
deriving DecidableEq, Repr

/-- Provider dispatch (route.ts line 67): exactly the string qwen selects the
qwen backend, everything else, including an absent provider, selects groq. -/
def selectBackend (provider : Option String) : Backend :=
  if provider = some "qwen" then .qwen else .groq

/-- Default model id used when the caller supplies none (route.ts line 55). -/
def defaultModel : String := "meta-llama/llama-4-maverick-17b-128e-instruct"

/-- Model resolution, requestedModel or default with JavaScript truthiness
(route.ts line 55): absent or empty falls back to the default id. -/
def effectiveModel (requested : Option String) : String :=
  match requested with
  | some m => if m = "" then defaultModel else m
  | none => defaultModel

/-- The message prepended ahead of the caller messages, per backend: the groq
branch prepends systemMessage itself (route.ts line 92), while the qwen branch
prepends the persona text under role user (route.ts line 70). -/
def personaMessage : Backend → OutMessage
  | .groq => systemMessage
  | .qwen => { role := "user", content := .str systemPrompt }

/-- The full outgoing message list for a request: the per-backend persona
message followed by the formatted caller messages (route.ts lines 69 to 72 for
qwen, lines 90 to 96 for groq; callQwenAPI then maps each message to its role
and content fields unchanged, route.ts lines 25 to 28). -/
def outgoingMessages (provider : Option String) (msgs : List ChatMessage) :
    List OutMessage :=
  match selectBackend provider with
  | .qwen => { role := "user", content := .str systemPrompt } :: msgs.map formatMessage
  | .groq => systemMessage :: msgs.map formatMessage

/-- The vendor request issued by the POST handler: chosen backend, resolved
model, and the outgoing message list. The handler has no validation branch
before this point, so the call is issued for every parsed request body. -/
structure VendorCall where
  backend : Backend
  model : String
  messages : List OutMessage
deriving DecidableEq, Repr

/-- The vendor call the chat POST handler issues for a given request body. -/
def chatVendorCall (msgs : List ChatMessage) (model provider : Option String) :
    VendorCall :=
  { backend := selectBackend provider
    model := effectiveModel model
    messages := outgoingMessages provider msgs }

/-- A delta object inside a groq stream chunk choice. -/
structure GroqDelta where
  content : Option String
deriving DecidableEq, Repr

/-- One choice inside a groq stream chunk. -/
structure GroqChoice where
  delta : Option GroqDelta
deriving DecidableEq, Repr

/-- One chunk of the groq completion stream. -/
structure GroqChunk where
  choices : List GroqChoice
deriving DecidableEq, Repr

/-- The fragment extracted from a chunk (route.ts line 103): the content of
the delta of the first choice, with every missing step and the JavaScript
or-empty-string fallback collapsing to the empty string. -/
def chunkContent (ch : GroqChunk) : String :=
  ((ch.choices.head?.bind GroqChoice.delta).bind GroqDelta.content).getD ""

/-- Hexadecimal digit character for a value below 16. -/
def hexDigit (n : Nat) : Char :=
  if n < 10 then Char.ofNat (48 + n) else Char.ofNat (87 + n)

/-- Four-digit lowercase hexadecimal rendering of a code point. -/
def hex4 (n : Nat) : String :=
  ⟨[hexDigit (n / 4096 % 16), hexDigit (n / 256 % 16),
    hexDigit (n / 16 % 16), hexDigit (n % 16)]⟩

/-- JSON string escaping of one character, as JSON.stringify performs it. -/
def jsonEscapeChar (c : Char) : String :=
  if c == '\x22' then "\\\x22"
  else if c == '\\' then "\\\\"
  else if c == '\n' then "\\n"
  else if c == '\r' then "\\r"
  else if c == '\t' then "\\t"
  else if c == '\x08' then "\\b"
  else if c == '\x0c' then "\\f"
  else if c.toNat < 32 then "\\u" ++ hex4 c.toNat
  else String.singleton c

/-- JSON rendering of a string value, as JSON.stringify performs it. -/
def jsonStringify (s : String) : String :=
  "\x22" ++ String.join (s.data.map jsonEscapeChar) ++ "\x22"

/-- The normalized server-sent-event chunk the groq branch enqueues for one
fragment (route.ts line 105): data: \x7b\x22content\x22:<json>\x7d plus two
newlines, where <json> is the JSON rendering of the fragment. -/
def contentLine (c : String) : String :=
  "data: \x7b\x22content\x22:" ++ jsonStringify c ++ "\x7d\n\n"

/-- The sentinel chunk closing the groq stream (route.ts line 108). -/
def doneLine : String := "data: [DONE]\n\n"

/-- The chunks enqueued by the groq branch read loop (route.ts lines 100 to
109): one contentLine per chunk with a non-empty extracted fragment, in
arrival order, then the sentinel, after which the controller is closed. -/
def groqStreamLines : List GroqChunk → List String
  | [] => [doneLine]
  | ch :: rest =>
      if chunkContent ch != "" then contentLine (chunkContent ch) :: groqStreamLines rest
      else groqStreamLines rest

/-- Outcome of the chat POST handler: a streamed response given by the list
of chunks it emits, or a JSON error response. -/
inductive ChatResponse where
  | stream (chunks : List String)
  | error (status : Nat) (msg : String)
deriving DecidableEq, Repr

/-- The chat POST handler (route.ts lines 36 to 131), with the vendor
behavior passed in explicitly: qwenOk is response.ok of the qwen fetch,
qwenChunks the chunks of the qwen response body, and groqChunks the chunks of
the groq completion stream. The qwen branch forwards the vendor body verbatim
(route.ts line 79); a failed qwen fetch throws and is caught by the handler
(route.ts lines 74 to 76 and 124 to 130); the groq branch emits the
normalized stream. -/
def chatPOST (msgs : List ChatMessage) (model provider : Option String)
    (qwenOk : Bool) (qwenChunks : List String) (groqChunks : List GroqChunk) :
    ChatResponse :=
  match selectBackend provider with
  | .qwen =>
      if qwenOk then .stream qwenChunks
      else .error 500 "Failed to generate response"
  | .groq =>
      let _ := msgs
      let _ := model
      .stream (groqStreamLines groqChunks)

/-- Modelled from the spec, for comparison only: the normalized stream shape
the specification asserts for a chat response, a contentLine per fragment
followed by exactly one sentinel. -/
def isNormalizedStream (chunks : List String) : Prop :=
  ∃ frags : List String, chunks = frags.map contentLine ++ [doneLine]

/-! ## Upload route (src/app/api/upload/route.ts, first variant) -/

/-- Membership in the JavaScript regular-expression whitespace class, ASCII
members (the regex backslash-s of route.ts line 44). -/
def jsWhitespace (c : Char) : Bool :=
  c == ' ' || c == '\t' || c == '\n' || c == '\r' || c == '\x0b' || c == '\x0c'

/-- Replacement of every maximal whitespace run by a single space, the effect
of replacing the global regex backslash-s-plus with one space
(route.ts line 44). -/
def collapseWs : List Char → List Char
  | [] => []
  | [c] => [if jsWhitespace c then ' ' else c]
  | c :: d :: rest =>
      if jsWhitespace c && jsWhitespace d then collapseWs (d :: rest)
      else (if jsWhitespace c then ' ' else c) :: collapseWs (d :: rest)

/-- Removal of leading and trailing whitespace (the trim call of route.ts
line 45). -/
def trimWs (l : List Char) : List Char :=
  ((l.dropWhile jsWhitespace).reverse.dropWhile jsWhitespace).reverse

/-- The whitespace cleanup of route.ts lines 43 to 45: collapse whitespace
runs to single spaces, then trim both ends. -/
def cleanText (s : String) : String :=
  ⟨trimWs (collapseWs s.data)⟩

/-- The maximum character count before truncation (route.ts line 48). -/
def maxLength : Nat := 50000

/-- The marker appended when the text is truncated (route.ts line 50). -/
def truncationMarker : String := "... [Document truncated due to length]"

/-- The truncation step of route.ts lines 48 to 51: text longer than
maxLength is cut to its first maxLength characters with the marker appended,
shorter text passes through unchanged. -/
def truncateText (s : String) : String :=
  if maxLength < s.length then ⟨s.data.take maxLength⟩ ++ truncationMarker else s

/-- The full post-extraction text pipeline: cleanup then truncation. -/
def processText (raw : String) : String := truncateText (cleanText raw)

/-- Lowercasing of the file name (route.ts line 18, toLowerCase), modelled
character by character. -/
def lowerName (name : String) : String := ⟨name.data.map Char.toLower⟩

/-- Suffix test on strings (the endsWith calls of route.ts lines 22 to 32). -/
def strEndsWith (s t : String) : Bool := t.data.isSuffixOf s.data

/-- Error message of the disabled pdf branch (route.ts line 25). -/
def pdfUnavailableMsg : String :=
  "PDF upload is temporarily unavailable. Please use DOCX, TXT, or MD files."

/-- Error message of the unsupported-suffix branch (route.ts line 37). -/
def unsupportedMsg : String :=
  "Unsupported file type. Please upload DOCX, TXT, or MD files."

/-- Result of the extraction dispatch: raw extracted text, or an early JSON
error response with its HTTP status. -/
inductive ExtractOutcome where
  | ok (raw : String)
  | reject (status : Nat) (msg : String)
deriving DecidableEq, Repr

/-- The suffix dispatch of route.ts lines 18 to 40, the fileName local being
inlined as lowerName name. The decoded file content is passed as a string,
and the mammoth docx extractor as a function from that content to its
extracted text. The pdf branch of this source variant always rejects; txt and
md decode the bytes directly; any other suffix rejects with the
unsupported-type message before any extraction. -/
def extractByName (name content : String) (docxExtract : String → String) :
    ExtractOutcome :=
  if strEndsWith (lowerName name) ".pdf" then .reject 400 pdfUnavailableMsg
  else if strEndsWith (lowerName name) ".docx" then .ok (docxExtract content)
  else if strEndsWith (lowerName name) ".txt" || strEndsWith (lowerName name) ".md" then
    .ok content
  else .reject 400 unsupportedMsg

/-- Outcome of the upload POST handler: the success JSON body with fileName,
text and characterCount (route.ts lines 53 to 58), or a JSON error. -/
inductive UploadResult where
  | ok (fileName text : String) (characterCount : Nat)
  | error (status : Nat) (msg : String)
deriving DecidableEq, Repr

/-- The upload POST handler (route.ts lines 4 to 66) for a present file,
given its name, decoded content, and the docx extractor. -/
def uploadPOST (name content : String) (docxExtract : String → String) :
    UploadResult :=
  match extractByName name content docxExtract with
  | .reject st msg => .error st msg
  | .ok raw => .ok name (processText raw) (processText raw).length

/-- The text field of an upload result, when the result is a success. -/
def resultText : UploadResult → Option String
  | .ok _ t _ => some t
  | .error _ _ => none

/-! ## Generate route (src/unnamed/part_002) -/

/-- The result object inside a vendor task-status response. -/
structure TaskResult where
  url : Option String
deriving DecidableEq, Repr

/-- The task_info object inside a vendor task-status response. -/
structure TaskInfo where
  status : Option String
  result : Option TaskResult
deriving DecidableEq, Repr

/-- A parsed vendor task-status response body, covering both vendor shapes:
the image vendor nests fields under task_info, the video vendor carries them
at top level. -/
structure VendorStatusData where
  task_info : Option TaskInfo
  status : Option String
  result : Option TaskResult
  url : Option String
deriving DecidableEq, Repr

/-- The normalized record the GET handler returns (part_002 lines 116 to
120): status, result, url. -/
structure NormalizedStatus where
  status : Option String
  result : Option TaskResult
  url : Option String
deriving DecidableEq, Repr

/-- JavaScript or on optional strings: a present non-empty string wins,
otherwise the fallback is used. -/
def jsOrStr (a b : Option String) : Option String :=
  match a with
  | some s => if s = "" then b else a
  | none => b

/-- JavaScript or on optional result objects: an object is always truthy, so
a present value wins and only absence falls back. -/
def jsOrResult (a b : Option TaskResult) : Option TaskResult :=
  match a with
  | some _ => a
  | none => b

/-- The field mapping of part_002 lines 116 to 120: each normalized field is
the task_info field when present, with the top-level field as fallback; url
additionally reaches through the task_info result object. -/
def normalizeStatus (d : VendorStatusData) : NormalizedStatus :=
  { status := jsOrStr (d.task_info.bind TaskInfo.status) d.status
    result := jsOrResult (d.task_info.bind TaskInfo.result) d.result
    url := jsOrStr ((d.task_info.bind TaskInfo.result).bind TaskResult.url) d.url }

/-- JavaScript falsiness of a nullable query parameter: null and the empty
string are falsy (the test on taskId and type, part_002 line 104). -/
def strFalsyOpt : Option String → Bool
  | none => true
  | some s => s == ""

/-- The type-specific vendor status endpoint (checkTaskStatus, part_002 lines
45 to 57): type image selects the image vendor, anything else the video
vendor. -/
def statusEndpoint (ty taskId : String) : String :=
  if ty == "image" then
    "https://api.mulerouter.ai/vendors/google/v1/nano-banana-pro/generation/" ++ taskId
  else
    "https://api.mulerouter.ai/vendors/alibaba/v1/wan2/t2v/generation/" ++ taskId

/-- Outcome of the generate GET handler. -/
inductive GenerateGetResponse where
  | ok (n : NormalizedStatus)
  | error (status : Nat) (msg : String)
deriving DecidableEq, Repr

/-- Whether the GET handler reaches the vendor call: true exactly when both
query parameters are present and non-empty (part_002 lines 104 to 108). -/
def generateGetCallsVendor (taskId ty : Option String) : Bool :=
  !(strFalsyOpt taskId || strFalsyOpt ty)

/-- The generate GET handler (part_002 lines 98 to 125), with the vendor
response passed in explicitly: vendorOk is response.ok, vendorStatus its HTTP
status, and data its parsed body. Missing or empty taskId or type yields the
400 error before the vendor call; a non-ok vendor response forwards its
status; otherwise the normalized record is returned. -/
def generateGET (taskId ty : Option String) (vendorOk : Bool)
    (vendorStatus : Nat) (data : VendorStatusData) : GenerateGetResponse :=
  if strFalsyOpt taskId || strFalsyOpt ty then
    .error 400 "taskId and type are required"
  else if !vendorOk then .error vendorStatus "Failed to check status"
  else .ok (normalizeStatus data)

/-- Whether a chat response is a vendor-backed stream rather than an error. -/
def ChatResponse.isStream : ChatResponse → Bool
  | .stream _ => true
  | .error _ _ => false

/-- A concrete 50001-character text of the letter a, used as the input whose
cleaned form exceeds the 50000-character budget. -/
def bigA : String := ⟨List.replicate 50001 'a'⟩

/-! ## Helper lemmas -/

/-- Collapsing whitespace runs leaves a list without whitespace unchanged. -/
theorem collapseWs_all_nonws :
    ∀ l : List Char, (∀ c ∈ l, jsWhitespace c = false) → collapseWs l = l
  | [], _ => rfl
  | [c], h => by
      simp [collapseWs, h c (List.mem_singleton.mpr rfl)]
  | c :: d :: rest, h => by
      have hc : jsWhitespace c = false := h c (by simp)
      have hd : jsWhitespace d = false := h d (by simp)
      have ih := collapseWs_all_nonws (d :: rest) (fun x hx => h x (List.mem_cons_of_mem c hx))
      simp [collapseWs, hc, hd, ih]

/-- Dropping by a predicate that is false everywhere changes nothing. -/
theorem dropWhile_all_false {p : Char → Bool} :
    ∀ l : List Char, (∀ c ∈ l, p c = false) → l.dropWhile p = l
  | [], _ => rfl
  | c :: rest, h => by
      rw [List.dropWhile_cons, h c (by simp)]
      simp

/-- Trimming leaves a list without whitespace unchanged. -/
theorem trimWs_all_nonws (l : List Char) (h : ∀ c ∈ l, jsWhitespace c = false) :
    trimWs l = l := by
  unfold trimWs
  rw [dropWhile_all_false l h,
      dropWhile_all_false l.reverse (fun c hc => h c (List.mem_reverse.mp hc)),
      List.reverse_reverse]

/-- The cleanup pipeline leaves an all-a text unchanged. -/
theorem cleanText_replicate_a (n : Nat) :
    cleanText ⟨List.replicate n 'a'⟩ = ⟨List.replicate n 'a'⟩ := by
  have hall : ∀ c ∈ List.replicate n 'a', jsWhitespace c = false := by
    intro c hc
    rw [List.eq_of_mem_replicate hc]
    decide
  unfold cleanText
  rw [collapseWs_all_nonws _ hall, trimWs_all_nonws _ hall]

/-- The cleaned all-a text keeps its length. -/
theorem length_cleanText_replicate_a (n : Nat) :
    (cleanText ⟨List.replicate n 'a'⟩).length = n := by
  rw [cleanText_replicate_a]
  show (List.replicate n 'a').length = n
  rw [List.length_replicate]

/-- A true suffix test determines the last character of the string. -/
theorem getLast_eq_of_endsWith {s t : String} (h : strEndsWith s t = true)
    (ht : t.data ≠ []) : s.data.getLast? = t.data.getLast? := by
  unfold strEndsWith at h
  rw [List.isSuffixOf_iff_suffix] at h
  obtain ⟨u, hu⟩ := h
  rw [← hu, List.getLast?_append_of_ne_nil _ ht]

/-- A name ending in txt cannot also end in pdf. -/
theorem endsWith_txt_not_pdf {s : String} (h : strEndsWith s ".txt" = true) :
    strEndsWith s ".pdf" = false := by
  cases hb : strEndsWith s ".pdf" with
  | false => rfl
  | true =>
    have h1 := getLast_eq_of_endsWith h (by decide)
    have h2 := getLast_eq_of_endsWith hb (by decide)
    rw [h1] at h2
    exact absurd h2 (by decide)

/-- A name ending in txt cannot also end in docx. -/
theorem endsWith_txt_not_docx {s : String} (h : strEndsWith s ".txt" = true) :
    strEndsWith s ".docx" = false := by
  cases hb : strEndsWith s ".docx" with
  | false => rfl
  | true =>
    have h1 := getLast_eq_of_endsWith h (by decide)
    have h2 := getLast_eq_of_endsWith hb (by decide)
    rw [h1] at h2
    exact absurd h2 (by decide)

/-- Over the budget, the pipeline truncates and appends the marker. -/
theorem processText_eq_of_gt {raw : String}
    (h : maxLength < (cleanText raw).length) :
    processText raw = ⟨(cleanText raw).data.take maxLength⟩ ++ truncationMarker := by
  unfold processText truncateText
  rw [if_pos h]

/-- Within the budget, the pipeline returns the cleaned text unchanged. -/
theorem processText_eq_of_le {raw : String}
    (h : (cleanText raw).length ≤ maxLength) :
    processText raw = cleanText raw := by
  unfold processText truncateText
  rw [if_neg (by omega)]

/-- Length of the truncated output: the budget plus the marker length. -/
theorem processText_length_of_gt {raw : String}
    (h : maxLength < (cleanText raw).length) :
    (processText raw).length = maxLength + truncationMarker.length := by
  rw [processText_eq_of_gt h, String.length_append]
  congr 1
  show ((cleanText raw).data.take maxLength).length = maxLength
  rw [List.length_take]
  have hd : (cleanText raw).data.length = (cleanText raw).length := rfl
  omega

/-- The suffix dispatch sends a txt name to the plain-text branch. -/
theorem extractByName_txt {name : String} (content : String)
    (docxExtract : String → String)
    (htxt : strEndsWith (lowerName name) ".txt" = true) :
    extractByName name content docxExtract = .ok content := by
  unfold extractByName
  rw [endsWith_txt_not_pdf htxt, endsWith_txt_not_docx htxt, htxt]
  rfl

/-- The cleaned 50001-character text is over the budget. -/
theorem bigA_clean_gt : maxLength < (cleanText bigA).length := by
  have h : (cleanText bigA).length = 50001 := length_cleanText_replicate_a 50001
  rw [h]
  decide


/-! ## Claim theorems -/

/-- C1 counterexample: a POST with an empty message list is not rejected. For
both providers the relay issues a vendor call (carrying only the prepended
persona message), and the groq branch even returns a stream consisting of the
sentinel alone; no rejection happens before the vendor call. -/
theorem empty_messages_vendor_call_cex :
    chatVendorCall [] none none =
      { backend := .groq, model := defaultModel, messages := [systemMessage] }
    ∧ chatVendorCall [] none (some "qwen") =
      { backend := .qwen, model := defaultModel,
        messages := [{ role := "user", content := .str systemPrompt }] }
    ∧ chatPOST [] none none true [] [] = .stream [doneLine] :=
  ⟨rfl, rfl, rfl⟩

/-- C1 amended: for every POST /chat request whose messages field is an empty
list, the relay does not reject the request; it proceeds to issue the vendor
call, whose message list consists of exactly the prepended per-backend
persona message. -/
theorem empty_messages_not_rejected (model provider : Option String) :
    chatVendorCall [] model provider =
      { backend := selectBackend provider, model := effectiveModel model,
        messages := [personaMessage (selectBackend provider)] } := by
  unfold chatVendorCall outgoingMessages personaMessage
  cases selectBackend provider <;> rfl

/-- C2 counterexample: for the qwen provider the vendor body is forwarded
verbatim, so a vendor stream consisting of the single chunk hello is returned
unchanged and is not of the normalized shape (it lacks the sentinel). -/
theorem qwen_stream_not_normalized_cex :
    chatPOST [] none (some "qwen") true ["hello"] [] = .stream ["hello"]
    ∧ ¬ isNormalizedStream ["hello"] := by
  refine ⟨rfl, ?_⟩
  rintro ⟨frags, h⟩
  cases frags with
  | nil =>
    simp only [List.map_nil, List.nil_append] at h
    have h1 : "hello" = doneLine := by injection h
    exact absurd h1 (by decide)
  | cons f fs =>
    have hl := congrArg List.length h
    simp [List.length_append] at hl

/-- C2 amended: for the groq provider the response stream consists of one
normalized data line per non-empty vendor fragment, in vendor order with none
dropped, followed by exactly one sentinel line; for the qwen provider the
vendor stream is forwarded verbatim without normalization. -/
theorem chat_stream_shape (chunks : List GroqChunk) (msgs : List ChatMessage)
    (model : Option String) (qs : List String) :
    groqStreamLines chunks =
      ((chunks.map chunkContent).filter (fun c => c != "")).map contentLine ++ [doneLine]
    ∧ chatPOST msgs model none true qs chunks = .stream (groqStreamLines chunks)
    ∧ chatPOST msgs model (some "qwen") true qs chunks = .stream qs := by
  refine ⟨?_, rfl, rfl⟩
  induction chunks with
  | nil => rfl
  | cons ch rest ih =>
    by_cases h : chunkContent ch = ""
    · simp [groqStreamLines, h, ih]
    · simp [groqStreamLines, h, ih]

/-- C3 counterexample: for the qwen provider the prepended persona message
carries role user, not role system, so the persona is not prepended as a
system-role message for every provider. -/
theorem qwen_persona_role_cex :
    (outgoingMessages (some "qwen") []).head? =
      some { role := "user", content := .str systemPrompt }
    ∧ (personaMessage (selectBackend (some "qwen"))).role = "user"
    ∧ ("user" : String) ≠ "system" :=
  ⟨rfl, rfl, by decide⟩

/-- C3 amended: for every POST /chat request the fixed persona text is
prepended server-side ahead of the callers message sequence for both
providers, and the caller cannot override it (the head of the outgoing list is
the fixed persona message, the caller messages fill only the tail); for groq
it is a system-role message, while for qwen it is prepended under role
user. -/
theorem persona_prepended (provider : Option String) (msgs : List ChatMessage) :
    outgoingMessages provider msgs =
      personaMessage (selectBackend provider) :: msgs.map formatMessage
    ∧ (personaMessage Backend.groq).role = "system"
    ∧ (personaMessage Backend.qwen).role = "user"
    ∧ (personaMessage (selectBackend provider)).content = .str systemPrompt := by
  refine ⟨?_, rfl, rfl, ?_⟩
  · unfold outgoingMessages personaMessage
    cases selectBackend provider <;> rfl
  · unfold personaMessage
    cases selectBackend provider <;> rfl

/-- C4: the upload pipeline truncates exactly at the 50000-character budget:
a cleaned text longer than the budget is returned as its first 50000
characters with the fixed marker appended, and a cleaned text within the
budget is returned unchanged. -/
theorem upload_truncation (raw : String) :
    maxLength = 50000
    ∧ (maxLength < (cleanText raw).length →
        processText raw = ⟨(cleanText raw).data.take maxLength⟩ ++ truncationMarker)
    ∧ ((cleanText raw).length ≤ maxLength → processText raw = cleanText raw) :=
  ⟨rfl, fun h => processText_eq_of_gt h, fun h => processText_eq_of_le h⟩

/-- C4 witness: the 50001-character all-a text is over the budget, and its
processed form is the 50000-character cut with the marker appended. -/
theorem upload_truncation_witness :
    maxLength < (cleanText bigA).length
    ∧ processText bigA = ⟨(cleanText bigA).data.take maxLength⟩ ++ truncationMarker :=
  ⟨bigA_clean_gt, (upload_truncation bigA).2.1 bigA_clean_gt⟩

/-- C5: an upload whose lowercased name ends in none of the four recognized
suffixes is answered with the 400 unsupported-file-type error naming the
accepted formats, whatever the file content and whatever the docx extractor
would do, and the dispatch rejects before any extraction. -/
theorem upload_unsupported_suffix (name content : String)
    (docxExtract : String → String)
    (hpdf : strEndsWith (lowerName name) ".pdf" = false)
    (hdocx : strEndsWith (lowerName name) ".docx" = false)
    (htxt : strEndsWith (lowerName name) ".txt" = false)
    (hmd : strEndsWith (lowerName name) ".md" = false) :
    uploadPOST name content docxExtract = .error 400 unsupportedMsg
    ∧ extractByName name content docxExtract = .reject 400 unsupportedMsg := by
  have he : extractByName name content docxExtract = .reject 400 unsupportedMsg := by
    unfold extractByName
    rw [hpdf, hdocx, htxt, hmd]
    rfl
  refine ⟨?_, he⟩
  unfold uploadPOST
  rw [he]

/-- C5 witness: an exe upload is rejected with the unsupported-type error. -/
theorem upload_unsupported_suffix_witness :
    strEndsWith (lowerName "Virus.EXE") ".pdf" = false
    ∧ strEndsWith (lowerName "Virus.EXE") ".docx" = false
    ∧ strEndsWith (lowerName "Virus.EXE") ".txt" = false
    ∧ strEndsWith (lowerName "Virus.EXE") ".md" = false
    ∧ uploadPOST "Virus.EXE" "MZ binary content" (fun s => s) =
        .error 400 unsupportedMsg := by
  refine ⟨by decide, by decide, by decide, by decide, ?_⟩
  exact (upload_unsupported_suffix "Virus.EXE" "MZ binary content" (fun s => s)
    (by decide) (by decide) (by decide) (by decide)).1

/-- C6: a message carrying a (truthy) inline image is expanded into the
two-part content list, text part holding the original content first, then the
image-reference part holding the image URL; a message without an image keeps
its content unchanged; and for both providers the outgoing list applies this
same per-message formatting to every caller message. -/
theorem image_message_expansion (msg : ChatMessage) (u : String)
    (himg : msg.image = some u) (hu : u ≠ "") :
    formatMessage msg =
      { role := msg.role, content := .parts [.text msg.content, .image_url u] }
    ∧ (∀ m : ChatMessage, m.image = none →
        formatMessage m = { role := m.role, content := .str m.content })
    ∧ (∀ provider : Option String, ∀ msgs : List ChatMessage,
        outgoingMessages provider msgs =
          personaMessage (selectBackend provider) :: msgs.map formatMessage) := by
  refine ⟨?_, ?_, ?_⟩
  · unfold formatMessage strTruthy
    rw [himg]
    simp [hu]
  · intro m hm
    unfold formatMessage strTruthy
    rw [hm]
    rfl
  · intro provider msgs
    unfold outgoingMessages personaMessage
    cases selectBackend provider <;> rfl

/-- C6 witness: a concrete user message with a pasted image is expanded into
the two-part content list. -/
theorem image_message_expansion_witness :
    ({ role := "user", content := "look at this",
       image := some "data:image/png;base64,AAA" } : ChatMessage).image =
      some "data:image/png;base64,AAA"
    ∧ ("data:image/png;base64,AAA" : String) ≠ ""
    ∧ formatMessage
        { role := "user", content := "look at this",
          image := some "data:image/png;base64,AAA" } =
      { role := "user",
        content := .parts [.text "look at this",
                           .image_url "data:image/png;base64,AAA"] } := by
  refine ⟨rfl, by decide, ?_⟩
  exact (image_message_expansion
    { role := "user", content := "look at this",
      image := some "data:image/png;base64,AAA" }
    "data:image/png;base64,AAA" rfl (by decide)).1

/-- C7: with both parameters present and non-empty, the generate GET handler
returns the same normalized status record for type image and for type video,
built by the task_info field mapping with its fallbacks; with either
parameter missing it returns the 400 error and the vendor is never called. -/
theorem generate_get_normalized (t : String) (ht : t ≠ "") (st : Nat)
    (d : VendorStatusData) :
    generateGET (some t) (some "image") true st d = .ok (normalizeStatus d)
    ∧ generateGET (some t) (some "video") true st d = .ok (normalizeStatus d)
    ∧ generateGET none (some "image") true st d =
        .error 400 "taskId and type are required"
    ∧ generateGET (some t) none true st d =
        .error 400 "taskId and type are required"
    ∧ generateGetCallsVendor none (some "image") = false
    ∧ generateGetCallsVendor (some t) none = false := by
  have hft : strFalsyOpt (some t) = false := by
    unfold strFalsyOpt
    simp [ht]
  refine ⟨?_, ?_, rfl, ?_, rfl, ?_⟩
  · unfold generateGET
    rw [hft]
    rfl
  · unfold generateGET
    rw [hft]
    rfl
  · unfold generateGET
    rw [hft]
    rfl
  · unfold generateGetCallsVendor
    rw [hft]
    rfl

/-- C7 witness: a concrete polled task with a nested task_info is normalized
into the flat status, result, url record. -/
theorem generate_get_normalized_witness :
    ("task-123" : String) ≠ ""
    ∧ generateGET (some "task-123") (some "image") true 200
        { task_info := some { status := some "succeeded",
                              result := some { url := some "https://x/img.png" } },
          status := none, result := none, url := none } =
      .ok { status := some "succeeded",
            result := some { url := some "https://x/img.png" },
            url := some "https://x/img.png" } := by
  refine ⟨by decide, ?_⟩
  have h := (generate_get_normalized "task-123" (by decide) 200
    { task_info := some { status := some "succeeded",
                          result := some { url := some "https://x/img.png" } },
      status := none, result := none, url := none }).1
  rw [h]
  rfl

/-- C8 counterexample: a txt upload of 50001 a-characters does not return the
cleaned text, since truncation replaces it; so the returned text does not
always equal the whitespace-collapsed trimmed decoding. -/
theorem upload_txt_clean_cex :
    resultText (uploadPOST "big.txt" bigA (fun s => s)) ≠ some (cleanText bigA) := by
  have he : extractByName "big.txt" bigA (fun s => s) = .ok bigA :=
    extractByName_txt bigA (fun s => s) (by decide)
  have hres : resultText (uploadPOST "big.txt" bigA (fun s => s)) =
      some (processText bigA) := by
    unfold uploadPOST
    rw [he]
    rfl
  rw [hres]
  intro h
  have h2 : processText bigA = cleanText bigA := by injection h
  have hlenp : (processText bigA).length = maxLength + truncationMarker.length :=
    processText_length_of_gt bigA_clean_gt
  have hlenc : (cleanText bigA).length = 50001 := length_cleanText_replicate_a 50001
  rw [h2, hlenc] at hlenp
  have hm : truncationMarker.length = 38 := by decide
  rw [hm] at hlenp
  exact absurd hlenp (by decide)

/-- C8 amended: for every txt upload whose cleaned text is within the
50000-character budget, the returned text equals the decoded content with
every maximal whitespace run collapsed to one space and both ends trimmed
(texts over the budget are truncated instead, see the truncation claim); in
particular the input a-newline-newline-space-space-b yields a-space-b. -/
theorem upload_txt_clean (name content : String) (docxExtract : String → String)
    (htxt : strEndsWith (lowerName name) ".txt" = true)
    (hlen : (cleanText content).length ≤ maxLength) :
    uploadPOST name content docxExtract =
      .ok name (cleanText content) (cleanText content).length := by
  have he : extractByName name content docxExtract = .ok content :=
    extractByName_txt content docxExtract htxt
  unfold uploadPOST
  rw [he]
  show UploadResult.ok name (processText content) (processText content).length =
    UploadResult.ok name (cleanText content) (cleanText content).length
  rw [processText_eq_of_le hlen]

/-- C8 witness: the txt upload of the text a-newline-newline-space-space-b
returns the text a-space-b with character count 3. -/
theorem upload_txt_clean_witness :
    strEndsWith (lowerName "notes.txt") ".txt" = true
    ∧ (cleanText "a\n\n  b").length ≤ maxLength
    ∧ uploadPOST "notes.txt" "a\n\n  b" (fun s => s) = .ok "notes.txt" "a b" 3 := by
  refine ⟨by decide, by decide, ?_⟩
  have h := upload_txt_clean "notes.txt" "a\n\n  b" (fun s => s) (by decide) (by decide)
  rw [h]
  decide

/-- C9: in every success response of the upload handler the characterCount
field equals the length of the returned text; and whenever the cleaned
extracted text was over the budget, the count equals the budget plus the
marker length. -/
theorem upload_characterCount (name content : String)
    (docxExtract : String → String) (fn t : String) (n : Nat)
    (h : uploadPOST name content docxExtract = .ok fn t n) :
    n = t.length
    ∧ (∀ raw : String, extractByName name content docxExtract = .ok raw →
        maxLength < (cleanText raw).length →
        n = maxLength + truncationMarker.length) := by
  unfold uploadPOST at h
  cases he : extractByName name content docxExtract with
  | reject st msg =>
    rw [he] at h
    exact absurd h (by simp)
  | ok raw0 =>
    rw [he] at h
    obtain ⟨h1, h2, h3⟩ := UploadResult.ok.inj h
    subst h1 h2 h3
    refine ⟨rfl, ?_⟩
    intro raw hraw hgt
    have hr := ExtractOutcome.ok.inj hraw
    subst hr
    exact processText_length_of_gt hgt

/-- C9 witness: the truncated big upload reports a character count equal to
the returned text length, namely the budget plus the marker length. -/
theorem upload_characterCount_witness :
    uploadPOST "big.txt" bigA (fun s => s) =
      .ok "big.txt" (processText bigA) ((processText bigA).length)
    ∧ (processText bigA).length = maxLength + truncationMarker.length := by
  have he : extractByName "big.txt" bigA (fun s => s) = .ok bigA :=
    extractByName_txt bigA (fun s => s) (by decide)
  have hup : uploadPOST "big.txt" bigA (fun s => s) =
      .ok "big.txt" (processText bigA) ((processText bigA).length) := by
    unfold uploadPOST
    rw [he]
  have h := upload_characterCount "big.txt" bigA (fun s => s) "big.txt"
    (processText bigA) ((processText bigA).length) hup
  exact ⟨hup, h.2 bigA he bigA_clean_gt⟩

/-- C10: any provider value other than the exact string qwen, including an
absent provider and unknown tags, selects the groq backend, and no provider
value is rejected: the handler always answers with a vendor-backed stream. -/
theorem provider_dispatch_default_groq (p : Option String) (hp : p ≠ some "qwen")
    (msgs : List ChatMessage) (model : Option String) (qs : List String)
    (chunks : List GroqChunk) :
    selectBackend p = .groq
    ∧ chatPOST msgs model p true qs chunks = .stream (groqStreamLines chunks)
    ∧ (∀ p2 : Option String, ∀ cks : List GroqChunk,
        (chatPOST msgs model p2 true qs cks).isStream = true) := by
  have hs : selectBackend p = .groq := by
    unfold selectBackend
    rw [if_neg hp]
  refine ⟨hs, ?_, ?_⟩
  · unfold chatPOST
    rw [hs]
  · intro p2 cks
    unfold chatPOST
    cases selectBackend p2 <;> rfl

/-- C10 witness: the unknown provider tag openai is routed to groq and the
request is answered with a stream, not rejected. -/
theorem provider_dispatch_default_groq_witness :
    (some "openai" : Option String) ≠ some "qwen"
    ∧ selectBackend (some "openai") = .groq
    ∧ chatPOST [] none (some "openai") true [] [] = .stream [doneLine] := by
  refine ⟨by decide, ?_, ?_⟩
  · exact (provider_dispatch_default_groq (some "openai") (by decide) [] none [] []).1
  · exact (provider_dispatch_default_groq (some "openai") (by decide) [] none [] []).2.1
